import Mathlib

/-!
Shallow embedding of the FRED genetic-algorithm calibration code
(`fredpy/genetic_algorithm_calibration/parameter.py`,
`genetic_calibration_param_group.py`, `genetic_calibration.py`, and the
advance functions of `bin/calibrate_opiod_params.py`).

Modelling conventions:
* Python floats are modelled as rationals (`ℚ`); arithmetic is exact.
* `random.uniform(a, b)` is modelled by consuming the head of an explicit
  list of unit draws (`List ℚ`): `uniform a b` returns `a + r * (b - a)`
  where `r` is the consumed draw (`0` when the list is exhausted).
  Hypotheses `0 ≤ r ≤ 1` stand for the guarantee of `random.random()`.
* Python exceptions are modelled with `Except String`; the string is the
  kind of exception raised (`ValueError`, `KeyError`, ...).
* Python `dict`s are association lists in insertion order; `dict.keys()`
  equality is key-set equality (`keysEqB`).
-/

namespace Fred

/-- A Python dict with string keys, in insertion order. -/
abbrev Dict (α : Type) := List (String × α)

def Dict.lookup {α : Type} (d : Dict α) (k : String) : Option α :=
  match d with
  | [] => none
  | (k1, v) :: rest => if k1 = k then some v else Dict.lookup rest k

def Dict.keys {α : Type} (d : Dict α) : List String :=
  d.map Prod.fst

/-- Membership of a key in a key list. -/
def keyMem (k : String) : List String → Bool
  | [] => false
  | x :: rest => if x = k then true else keyMem k rest

/-- Python `d1.keys() == d2.keys()`: equality of the key sets. -/
def keysEqB {α β : Type} (d : Dict α) (e : Dict β) : Bool :=
  (Dict.keys d).all (fun k => keyMem k (Dict.keys e)) &&
    (Dict.keys e).all (fun k => keyMem k (Dict.keys d))


/-- Consume the next unit random draw from the supply (0 when exhausted,
matching a deterministic default that is within the legal range). -/
def draw (s : List ℚ) : ℚ × List ℚ :=
  match s with
  | [] => (0, [])
  | r :: rest => (r, rest)

/-- Model of `random.uniform(a, b)`: `a + r * (b - a)` for a unit draw `r`. -/
def uniform (a b : ℚ) (s : List ℚ) : ℚ × List ℚ :=
  let p := draw s
  (a + p.1 * (b - a), p.2)

/-- Every draw in the supply is a legal output of `random.random()`. -/
def UnitDraws (s : List ℚ) : Prop :=
  ∀ r ∈ s, 0 ≤ r ∧ r ≤ 1

/-- `parameter.Parameter`: a named value ranging over `min_val .. max_val`. -/
structure Parameter where
  name : String
  val : ℚ
  min_val : ℚ
  max_val : ℚ
deriving Repr, DecidableEq

/-- `Parameter.__init__`: value must be inside the range and the range must
be non-degenerate, else a `ValueError` is raised. -/
def mkParameter (name : String) (val min_val max_val : ℚ) :
    Except String Parameter :=
  if val < min_val ∨ val > max_val then
    Except.error "ValueError: value is out of range"
  else if min_val ≥ max_val then
    Except.error "ValueError: min_val must be strictly less than max_val"
  else
    Except.ok ⟨name, val, min_val, max_val⟩

/-- `parameter.BreedableParameter`: a `Parameter` with a mutation probability. -/
structure BreedableParameter extends Parameter where
  mutation_prob : ℚ
deriving Repr, DecidableEq

/-- Python `del d[k]`: drop the entry with the given key, keeping order. -/
def delKey {α : Type} (d : Dict α) (k : String) : Dict α :=
  match d with
  | [] => []
  | (k1, v) :: rest => if k1 = k then delKey rest k else (k1, v) :: delKey rest k

/-- Python list indexing (for a nonnegative index). -/
def nthParam : List BreedableParameter → ℕ → Option BreedableParameter
  | [], _ => none
  | p :: _, 0 => some p
  | _ :: rest, n + 1 => nthParam rest n

/-- `BreedableParameter.__init__`: the `Parameter` checks run first (via
`super().__init__`), then the mutation probability is checked against [0,1]. -/
def mkBreedableParameter (name : String) (val min_val max_val mutation_prob : ℚ) :
    Except String BreedableParameter :=
  match mkParameter name val min_val max_val with
  | Except.error e => Except.error e
  | Except.ok p =>
    if mutation_prob < 0 ∨ mutation_prob > 1 then
      Except.error "ValueError: mutation_prob is out of allowable range"
    else
      Except.ok ⟨p, mutation_prob⟩

/-- `BreedableParameter.generate_random`: a fresh parameter whose value is
`random.uniform(min_rnd_val, max_rnd_val)`, built through the constructor. -/
def generate_random (name : String) (min_val max_val min_rnd_val max_rnd_val
    mutation_prob : ℚ) (s : List ℚ) :
    Except String (BreedableParameter × List ℚ) :=
  let p := uniform min_rnd_val max_rnd_val s
  match mkBreedableParameter name p.1 min_val max_val mutation_prob with
  | Except.error e => Except.error e
  | Except.ok bp => Except.ok (bp, p.2)

/-- `BreedableParameter.clone`. -/
def BreedableParameter.clone (p : BreedableParameter) :
    Except String BreedableParameter :=
  mkBreedableParameter p.name p.val p.min_val p.max_val p.mutation_prob

/-- `BreedableParameter.breed`. Branches, in source order: name mismatch
raises; equal values fully re-randomize over the legal range; with
probability `mutation_prob` the child is drawn outside the parents'
interval (the zone is picked in proportion to its width — a zero combined
width raises `ZeroDivisionError`, as `0.0 / 0.0` does in Python); otherwise
the child is drawn between the parents' values. -/
def BreedableParameter.breed (self other : BreedableParameter) (s : List ℚ) :
    Except String (BreedableParameter × List ℚ) :=
  if self.name ≠ other.name then
    Except.error "ValueError: tried to breed two parameters with different names"
  else if self.val = other.val then
    generate_random self.name self.min_val self.max_val self.min_val
      self.max_val self.mutation_prob s
  else
    -- the draws `pm` (mutation check), `pr` (zone pick) and `pv` (child
    -- value) of the source are written out as chained `uniform` calls
    if (uniform 0 1 s).1 < self.mutation_prob then
      if self.val < other.val then
        if (self.val - self.min_val) + (self.max_val - other.val) = 0 then
          Except.error "ZeroDivisionError: float division by zero"
        else if (uniform 0 1 (uniform 0 1 s).2).1 <
            (self.val - self.min_val) /
              ((self.val - self.min_val) + (self.max_val - other.val)) then
          generate_random self.name self.min_val self.max_val self.min_val
            self.val self.mutation_prob (uniform 0 1 (uniform 0 1 s).2).2
        else
          generate_random self.name self.min_val self.max_val other.val
            self.max_val self.mutation_prob (uniform 0 1 (uniform 0 1 s).2).2
      else
        if (other.val - self.min_val) + (self.max_val - self.val) = 0 then
          Except.error "ZeroDivisionError: float division by zero"
        else if (uniform 0 1 (uniform 0 1 s).2).1 <
            (other.val - self.min_val) /
              ((other.val - self.min_val) + (self.max_val - self.val)) then
          generate_random self.name self.min_val self.max_val self.min_val
            other.val self.mutation_prob (uniform 0 1 (uniform 0 1 s).2).2
        else
          generate_random self.name self.min_val self.max_val self.val
            self.max_val self.mutation_prob (uniform 0 1 (uniform 0 1 s).2).2
    else if self.val < other.val then
      match mkBreedableParameter self.name
          (uniform self.val other.val (uniform 0 1 s).2).1 self.min_val
          self.max_val self.mutation_prob with
      | Except.error e => Except.error e
      | Except.ok bp => Except.ok (bp, (uniform self.val other.val (uniform 0 1 s).2).2)
    else
      match mkBreedableParameter self.name
          (uniform other.val self.val (uniform 0 1 s).2).1 self.min_val
          self.max_val self.mutation_prob with
      | Except.error e => Except.error e
      | Except.ok bp => Except.ok (bp, (uniform other.val self.val (uniform 0 1 s).2).2)

/-- The `total_distance` computation of `move_towards_value`: the distance
to the target, clamped to the legal range. -/
def totalDistance (self : BreedableParameter) (target : ℚ) : ℚ :=
  if target > self.max_val then |self.max_val - self.val|
  else if target < self.min_val then |self.val - self.min_val|
  else |target - self.val|

/-- `BreedableParameter.move_towards_value`: move `rate` of the way towards
`target` (clamped to the legal range through `totalDistance`); a rate
outside [0,1] raises. -/
def BreedableParameter.move_towards_value (self : BreedableParameter)
    (target rate : ℚ) : Except String BreedableParameter :=
  if rate < 0 ∨ rate > 1 then
    Except.error "ValueError: rate must be between 0.0 and 1.0"
  else if self.val < target then
    mkBreedableParameter self.name (self.val + totalDistance self target * rate)
      self.min_val self.max_val self.mutation_prob
  else if self.val > target then
    mkBreedableParameter self.name (self.val - totalDistance self target * rate)
      self.min_val self.max_val self.mutation_prob
  else
    mkBreedableParameter self.name self.val self.min_val self.max_val
      self.mutation_prob

/-- `BreedableParameterGoup` (sic): an ordered list of parameters together
with a name-to-index dictionary. -/
structure BreedableParameterGoup where
  param_list : List BreedableParameter
  param_index_dict : Dict ℕ
deriving Repr, DecidableEq

/-- The freshly constructed, empty group. -/
def BreedableParameterGoup.init : BreedableParameterGoup := ⟨[], []⟩

/-- `BreedableParameterGoup.append`: refuse a duplicate name, else push the
parameter and record its index. -/
def BreedableParameterGoup.append (g : BreedableParameterGoup)
    (p : BreedableParameter) : Except String BreedableParameterGoup :=
  if keyMem p.name (Dict.keys g.param_index_dict) then
    Except.error "ValueError: unable to append an existing parameter"
  else
    Except.ok ⟨g.param_list ++ [p],
      g.param_index_dict ++ [(p.name, g.param_list.length)]⟩

/-- `BreedableParameterGoup.remove`, modelled faithfully including the slip
`self.__param_list.pop([idx])`: the source passes a one-element *list* to
`list.pop`, which raises `TypeError`. By that point the index dictionary has
already been mutated (higher indices decremented, the entry deleted), so the
returned state carries the mutated dictionary, the untouched list, and the
exception. When the name is absent the call is a no-op. -/
def BreedableParameterGoup.remove (g : BreedableParameterGoup)
    (p : BreedableParameter) : BreedableParameterGoup × Option String :=
  match Dict.lookup g.param_index_dict p.name with
  | none => (g, none)
  | some idx =>
    let decremented := g.param_index_dict.map
      (fun kv => if kv.2 > idx then (kv.1, kv.2 - 1) else kv)
    let deleted := delKey decremented p.name
    (⟨g.param_list, deleted⟩,
      some "TypeError: list indices must be integers, not list")

/-- `BreedableParameterGoup.get_as_dictionary`. -/
def BreedableParameterGoup.get_as_dictionary (g : BreedableParameterGoup) :
    Dict ℚ :=
  g.param_index_dict.map (fun kv =>
    (kv.1, ((nthParam g.param_list kv.2).getD ⟨⟨"", 0, 0, 0⟩, 0⟩).val))

/-- Loop body of `BreedableParameterGoup.randomize`: walk the index
dictionary, regenerating each parameter uniformly over its legal range and
appending it to a fresh group. List indexing out of range raises. -/
def randomizeLoop (g : BreedableParameterGoup) :
    Dict ℕ → BreedableParameterGoup → List ℚ →
    Except String (BreedableParameterGoup × List ℚ)
  | [], acc, s => Except.ok (acc, s)
  | (_, idx) :: rest, acc, s =>
    match nthParam g.param_list idx with
    | none => Except.error "IndexError: list index out of range"
    | some p =>
      match generate_random p.name p.min_val p.max_val p.min_val p.max_val
          p.mutation_prob s with
      | Except.error e => Except.error e
      | Except.ok (np, s1) =>
        match acc.append np with
        | Except.error e => Except.error e
        | Except.ok acc1 => randomizeLoop g rest acc1 s1

/-- `BreedableParameterGoup.randomize`. -/
def BreedableParameterGoup.randomize (g : BreedableParameterGoup)
    (s : List ℚ) : Except String (BreedableParameterGoup × List ℚ) :=
  randomizeLoop g g.param_index_dict BreedableParameterGoup.init s

/-- Loop body of `BreedableParameterGoup.breed`: walk self's index
dictionary, look up the partner's index for the same name, breed the two
parameters and append the child. -/
def breedGroupLoop (selfG otherG : BreedableParameterGoup) :
    Dict ℕ → BreedableParameterGoup → List ℚ →
    Except String (BreedableParameterGoup × List ℚ)
  | [], acc, s => Except.ok (acc, s)
  | (name, idx) :: rest, acc, s =>
    match Dict.lookup otherG.param_index_dict name with
    | none => Except.error "KeyError: name missing from other param_index_dict"
    | some oidx =>
      match nthParam selfG.param_list idx, nthParam otherG.param_list oidx with
      | some p1, some p2 =>
        match p1.breed p2 s with
        | Except.error e => Except.error e
        | Except.ok (child, s1) =>
          match acc.append child with
          | Except.error e => Except.error e
          | Except.ok acc1 => breedGroupLoop selfG otherG rest acc1 s1
      | _, _ => Except.error "IndexError: list index out of range"

/-- `BreedableParameterGoup.breed`: size check, key-set check, then breed
parameter-by-parameter in self's dictionary order. -/
def BreedableParameterGoup.breed (selfG otherG : BreedableParameterGoup)
    (s : List ℚ) : Except String (BreedableParameterGoup × List ℚ) :=
  if selfG.param_list.length ≠ otherG.param_list.length then
    Except.error "ValueError: tried to breed two parameter groups with different parameter list sizes"
  else if ¬ keysEqB selfG.param_index_dict otherG.param_index_dict then
    Except.error "ValueError: tried to breed two parameter groups with different parameter index dictionaries"
  else
    breedGroupLoop selfG otherG selfG.param_index_dict
      BreedableParameterGoup.init s

/-- First pass of `gradient_update_to_target`: for each outcome whose target
and outcome are both nonzero, record the multiplier `targets[name] /
outcome`; a name absent from targets raises `KeyError`. Entries with a zero
target or zero outcome are skipped (no multiplier recorded). -/
def targetMultipliers (outcomes targets : Dict ℚ) : Except String (Dict ℚ) :=
  match outcomes with
  | [] => Except.ok []
  | (name, outcome) :: rest =>
    match Dict.lookup targets name with
    | none => Except.error "KeyError: name missing from targets"
    | some t =>
      match targetMultipliers rest targets with
      | Except.error e => Except.error e
      | Except.ok ms =>
        if t = 0 ∨ outcome = 0 then Except.ok ms
        else Except.ok ((name, 1 / (outcome / t)) :: ms)

/-- Find the first target in `target_to_parameters_weights` (in insertion
order) whose weight dictionary mentions `param_name`; return that target's
name and the weight. -/
def findWeight (param_name : String) :
    Dict (Dict ℚ) → Option (String × ℚ)
  | [] => none
  | (tname, wd) :: rest =>
    match Dict.lookup wd param_name with
    | some w => some (tname, w)
    | none => findWeight param_name rest

/-- Loop body of `BreedableParameterGoup.gradient_update_to_target`: each
parameter whose name occurs in some weight dictionary is moved 85% of the
way towards `val * weight * target_multipliers[target_name]` — that last
lookup raises `KeyError` when the multiplier was skipped; parameters not
mentioned anywhere are cloned. -/
def gradientLoop (g : BreedableParameterGoup) (multipliers : Dict ℚ)
    (weights : Dict (Dict ℚ)) :
    Dict ℕ → BreedableParameterGoup →
    Except String BreedableParameterGoup
  | [], acc => Except.ok acc
  | (param_name, idx) :: rest, acc =>
    match nthParam g.param_list idx with
    | none => Except.error "IndexError: list index out of range"
    | some p =>
      match
        match findWeight param_name weights with
        | some (tname, w) =>
          match Dict.lookup multipliers tname with
          | none => Except.error "KeyError: target_name missing from target_multipliers"
          | some m => p.move_towards_value (p.val * w * m) (17 / 20)
        | none => p.clone
      with
      | Except.error e => Except.error e
      | Except.ok np =>
        match acc.append np with
        | Except.error e => Except.error e
        | Except.ok acc1 => gradientLoop g multipliers weights rest acc1

/-- `BreedableParameterGoup.gradient_update_to_target`. -/
def BreedableParameterGoup.gradient_update_to_target
    (g : BreedableParameterGoup) (outcomes targets : Dict ℚ)
    (weights : Dict (Dict ℚ)) : Except String BreedableParameterGoup :=
  match targetMultipliers outcomes targets with
  | Except.error e => Except.error e
  | Except.ok ms => gradientLoop g ms weights g.param_index_dict
      BreedableParameterGoup.init

/-- Largest double (`sys.float_info.max`), exactly. -/
def DBL_MAX : ℚ := 2 ^ 1024 - 2 ^ 971

/-- `genetic_calibration.GeneticCalibration`. The code stores
`evaluated_error = sqrt(squared_error)`, a float; we store the exact
radicand `evaluated_error_sq` instead. All comparisons between candidates
compare `evaluated_error`, and `sqrt` is strictly monotone on nonnegatives,
so comparing the radicands is order-faithful; the real-valued error itself
is recovered by `GeneticCalibration.evaluatedError`. The initial error
`sys.float_info.max` is represented by its square. `outcomes` is an
`Option` mirroring the `None` comparison in the source; the constructor
initializes it to the empty dict (`some []`), never to `none`. -/
structure GeneticCalibration where
  param_group : BreedableParameterGoup
  targets : Dict ℚ
  outcomes : Option (Dict ℚ)
  target_to_parameters_weights : Dict (Dict ℚ)
  threshold : ℚ
  evaluated_error_sq : ℚ
  fred_key : Option String
deriving Repr, DecidableEq

/-- `GeneticCalibration.__init__`. -/
def GeneticCalibration.init : GeneticCalibration :=
  ⟨BreedableParameterGoup.init, [], some [], [], 1 / 10, DBL_MAX ^ 2, none⟩

/-- The real-valued stored error of the source: the square root of the
stored squared error. -/
noncomputable def GeneticCalibration.evaluatedError
    (gc : GeneticCalibration) : ℝ :=
  Real.sqrt (gc.evaluated_error_sq : ℝ)

/-- One squared relative-error term of `GeneticCalibration.evaluate`:
denominator `target`, or the fixed `0.001` when the target is zero. -/
def relTermSq (t o : ℚ) : ℚ :=
  if t = 0 then ((t - o) / (1 / 1000)) ^ 2 else ((t - o) / t) ^ 2

/-- The accumulation loop of `GeneticCalibration.evaluate`: sum the squared
relative-error terms over the targets, looking each outcome up by key
(`KeyError` if absent — unreachable after the key-set guard). -/
def squaredErrorSum (targets outcomes : Dict ℚ) : Except String ℚ :=
  match targets with
  | [] => Except.ok 0
  | (name, t) :: rest =>
    match Dict.lookup outcomes name with
    | none => Except.error "KeyError: name missing from outcomes"
    | some o =>
      match squaredErrorSum rest outcomes with
      | Except.error e => Except.error e
      | Except.ok acc => Except.ok (relTermSq t o + acc)

/-- `GeneticCalibration.evaluate`: key sets must match, then the outcomes
are stored as given and the error becomes the root of the summed squared
relative errors (stored here as its square). -/
def GeneticCalibration.evaluate (gc : GeneticCalibration)
    (outcomes : Dict ℚ) : Except String GeneticCalibration :=
  if ¬ keysEqB gc.targets outcomes then
    Except.error "ValueError: the targets dictionary and the outcomes dictionary have different keys"
  else
    match squaredErrorSum gc.targets outcomes with
    | Except.error e => Except.error e
    | Except.ok sq =>
      Except.ok { gc with outcomes := some outcomes, evaluated_error_sq := sq }

/-- One per-metric term of `evaluate_individual_error_contributions`: the
source computes `math.sqrt(x ** 2)`, which is exactly `|x|`. -/
def relTermAbs (t o : ℚ) : ℚ :=
  if t = 0 then |(t - o) / (1 / 1000)| else |(t - o) / t|

/-- The accumulation loop of `evaluate_individual_error_contributions`. -/
def errorContributionsLoop (targets outcomes : Dict ℚ) :
    Except String (Dict ℚ) :=
  match targets with
  | [] => Except.ok []
  | (name, t) :: rest =>
    match Dict.lookup outcomes name with
    | none => Except.error "KeyError: name missing from outcomes"
    | some o =>
      match errorContributionsLoop rest outcomes with
      | Except.error e => Except.error e
      | Except.ok acc => Except.ok ((name, relTermAbs t o) :: acc)

/-- `GeneticCalibration.evaluate_individual_error_contributions`. The
source first tests `self.__outcomes == None` (only `none` trips it; the
constructor sets `{}`), then compares key sets — note the raise statement of
the key-mismatch branch itself references the undefined name `outcomes`, so
reaching it raises `NameError` while building the message. -/
def GeneticCalibration.evaluate_individual_error_contributions
    (gc : GeneticCalibration) : Except String (Dict ℚ) :=
  match gc.outcomes with
  | none => Except.error "ValueError: the outcomes must be set by using the evaluate method"
  | some outs =>
    if ¬ keysEqB gc.targets outs then
      Except.error "NameError: name outcomes is not defined"
    else
      errorContributionsLoop gc.targets outs

/-- `GeneticCalibration.breed`: size and key-set checks at the calibration
level, then the parameter groups are bred; targets, threshold and weights
are copied onto a freshly constructed calibration. -/
def GeneticCalibration.breed (self other : GeneticCalibration) (s : List ℚ) :
    Except String (GeneticCalibration × List ℚ) :=
  if self.param_group.param_list.length ≠ other.param_group.param_list.length then
    Except.error "ValueError: tried to breed two parameter groups with different parameter list sizes"
  else if ¬ keysEqB self.param_group.param_index_dict
      other.param_group.param_index_dict then
    Except.error "ValueError: tried to breed two parameter groups with different parameter index dictionaries"
  else
    match self.param_group.breed other.param_group s with
    | Except.error e => Except.error e
    | Except.ok (pg, s1) =>
      Except.ok ({ GeneticCalibration.init with
        param_group := pg,
        targets := self.targets,
        threshold := self.threshold,
        target_to_parameters_weights := self.target_to_parameters_weights }, s1)

/-- `GeneticCalibration.gradient_update_to_target`: delegate to the group
with this candidate's outcomes, targets and weights; copy targets,
threshold and weights onto a freshly constructed calibration. -/
def GeneticCalibration.gradient_update_to_target (gc : GeneticCalibration) :
    Except String GeneticCalibration :=
  match gc.outcomes with
  | none => Except.error "AttributeError: NoneType has no items"
  | some outs =>
    match gc.param_group.gradient_update_to_target outs gc.targets
        gc.target_to_parameters_weights with
    | Except.error e => Except.error e
    | Except.ok pg =>
      Except.ok { GeneticCalibration.init with
        param_group := pg,
        targets := gc.targets,
        threshold := gc.threshold,
        target_to_parameters_weights := gc.target_to_parameters_weights }

/-- Stable insertion of a candidate after all existing candidates that
compare `≤` to it. The rich comparisons of `GeneticCalibration` compare
`evaluated_error`; on the squared representation the same order is `≤` on
the radicands, since `sqrt` is strictly monotone on nonnegatives. -/
def insertSorted (x : GeneticCalibration) :
    List GeneticCalibration → List GeneticCalibration
  | [] => [x]
  | y :: ys =>
    if y.evaluated_error_sq ≤ x.evaluated_error_sq then y :: insertSorted x ys
    else x :: y :: ys

/-- `genetic_calibrations.sort()`: Python's sort is stable and ascending;
any stable ascending sort computes the same list, and this insertion sort
is one (each element is inserted after its equals). -/
def sortCandidates (l : List GeneticCalibration) : List GeneticCalibration :=
  l.foldl (fun acc x => insertSorted x acc) []

/-- The message of the `IndexError` both advance functions raise on a
population whose size is not exactly ten. -/
def sizeErrMsg : String := "IndexError: Genetic Calibration List must be exactly ten items"

/-- `calibrate_opiod_params._perform_genetic_mixing`: exactly ten
candidates, sorted; keep the best and breed the fixed index pairs
(0,1) (0,2) (0,3) (1,2) (1,3) (1,4) (2,3) (2,4) (3,4). -/
def perform_genetic_mixing (l : List GeneticCalibration) (s : List ℚ) :
    Except String (List GeneticCalibration × List ℚ) :=
  if l.length = 10 then
    match sortCandidates l with
    | g0 :: g1 :: g2 :: g3 :: g4 :: _ =>
      match g0.breed g1 s with
      | Except.error e => Except.error e
      | Except.ok (b01, s1) =>
      match g0.breed g2 s1 with
      | Except.error e => Except.error e
      | Except.ok (b02, s2) =>
      match g0.breed g3 s2 with
      | Except.error e => Except.error e
      | Except.ok (b03, s3) =>
      match g1.breed g2 s3 with
      | Except.error e => Except.error e
      | Except.ok (b12, s4) =>
      match g1.breed g3 s4 with
      | Except.error e => Except.error e
      | Except.ok (b13, s5) =>
      match g1.breed g4 s5 with
      | Except.error e => Except.error e
      | Except.ok (b14, s6) =>
      match g2.breed g3 s6 with
      | Except.error e => Except.error e
      | Except.ok (b23, s7) =>
      match g2.breed g4 s7 with
      | Except.error e => Except.error e
      | Except.ok (b24, s8) =>
      match g3.breed g4 s8 with
      | Except.error e => Except.error e
      | Except.ok (b34, s9) =>
        Except.ok ([g0, b01, b02, b03, b12, b13, b14, b23, b24, b34], s9)
    | _ => Except.error sizeErrMsg
  else Except.error sizeErrMsg

/-- `calibrate_opiod_params._perform_weighted_parameter_adjustments`:
exactly ten candidates, sorted; keep the two best unchanged and append the
gradient updates of the sorted candidates at indices 0 through 7. -/
def perform_weighted_parameter_adjustments (l : List GeneticCalibration) :
    Except String (List GeneticCalibration) :=
  if l.length = 10 then
    match sortCandidates l with
    | g0 :: g1 :: g2 :: g3 :: g4 :: g5 :: g6 :: g7 :: _ =>
      match g0.gradient_update_to_target with
      | Except.error e => Except.error e
      | Except.ok u0 =>
      match g1.gradient_update_to_target with
      | Except.error e => Except.error e
      | Except.ok u1 =>
      match g2.gradient_update_to_target with
      | Except.error e => Except.error e
      | Except.ok u2 =>
      match g3.gradient_update_to_target with
      | Except.error e => Except.error e
      | Except.ok u3 =>
      match g4.gradient_update_to_target with
      | Except.error e => Except.error e
      | Except.ok u4 =>
      match g5.gradient_update_to_target with
      | Except.error e => Except.error e
      | Except.ok u5 =>
      match g6.gradient_update_to_target with
      | Except.error e => Except.error e
      | Except.ok u6 =>
      match g7.gradient_update_to_target with
      | Except.error e => Except.error e
      | Except.ok u7 =>
        Except.ok [g0, g1, u0, u1, u2, u3, u4, u5, u6, u7]
    | _ => Except.error sizeErrMsg
  else Except.error sizeErrMsg

/-- A concrete calibration candidate for exercising the weighted
adjustment: one parameter `p` with value `v` in [0,1], no targets and no
weights (so its gradient update is a pure clone), and a chosen stored
(squared) error `e` to fix the sort order. -/
def cexCand (v e : ℚ) : GeneticCalibration :=
  ⟨⟨[⟨⟨"p", v, 0, 1⟩, 1 / 10⟩], [("p", 0)]⟩, [], some [], [], 1 / 10, e, none⟩

/-- The gradient update of `cexCand v e`: the same parameter value on a
freshly constructed calibration. -/
def cexUpdated (v : ℚ) : GeneticCalibration :=
  ⟨⟨[⟨⟨"p", v, 0, 1⟩, 1 / 10⟩], [("p", 0)]⟩, [], some [], [], 1 / 10,
    DBL_MAX ^ 2, none⟩

/-- Ten concrete evaluated candidates with pairwise distinct parameter
values and already-ascending errors. -/
def cexList : List GeneticCalibration :=
  [cexCand (1 / 10) 0, cexCand (2 / 10) 1, cexCand (3 / 10) 2,
   cexCand (4 / 10) 3, cexCand (5 / 10) 4, cexCand (6 / 10) 5,
   cexCand (7 / 10) 6, cexCand (8 / 10) 7, cexCand (9 / 10) 8,
   cexCand 1 9]

/-- Indexing into a candidate list (for a nonnegative index). -/
def nthCand : List GeneticCalibration → ℕ → Option GeneticCalibration
  | [], _ => none
  | g :: _, 0 => some g
  | _ :: rest, n + 1 => nthCand rest n

/-- The candidate at the given index of the weighted-adjustment output, or
`none` on error or out of range. -/
def weightedOutputAt (l : List GeneticCalibration) (i : ℕ) :
    Option GeneticCalibration :=
  match perform_weighted_parameter_adjustments l with
  | Except.error _ => none
  | Except.ok out => nthCand out i

/-- The gradient update of the sorted input's candidate at the given index,
or `none` on error or out of range — what the spec claims the output at
index `i + 2` is, for `i + 2` between 2 and 9. -/
def gradientOfSortedAt (l : List GeneticCalibration) (i : ℕ) :
    Option GeneticCalibration :=
  match nthCand (sortCandidates l) i with
  | none => none
  | some g => g.gradient_update_to_target.toOption

/-- Extreme parents for the breed mutation branch: same name, values at the
two ends of the legal range, mutation probability one. -/
def pLow : BreedableParameter := ⟨⟨"p", 0, 0, 1⟩, 1⟩

/-- The high-end partner of `pLow`. -/
def pHigh : BreedableParameter := ⟨⟨"p", 1, 0, 1⟩, 1⟩

/-- A concrete group with one parameter `p` for the gradient KeyError. -/
def gradCexGroup : BreedableParameterGoup :=
  ⟨[⟨⟨"p", 1 / 2, 0, 1⟩, 1 / 10⟩], [("p", 0)]⟩

/-- A concrete two-parameter group for exercising `remove`. -/
def removeCexGroup : BreedableParameterGoup :=
  ⟨[⟨⟨"a", 0, 0, 1⟩, 0⟩, ⟨⟨"b", 1 / 2, 0, 1⟩, 0⟩], [("a", 0), ("b", 1)]⟩

/-- A candidate with the worked-example targets of the spec. -/
def gcAB : GeneticCalibration :=
  { GeneticCalibration.init with targets := [("a", 100), ("b", 0)] }

/-- Well-formedness of a parameter: exactly what a successful run of the
`BreedableParameter` constructor guarantees. -/
def WF (p : BreedableParameter) : Prop :=
  p.min_val ≤ p.val ∧ p.val ≤ p.max_val ∧ p.min_val < p.max_val ∧
    0 ≤ p.mutation_prob ∧ p.mutation_prob ≤ 1

/-- The range invariant of the spec: `min ≤ value ≤ max`. -/
def Inv (p : BreedableParameter) : Prop :=
  p.min_val ≤ p.val ∧ p.val ≤ p.max_val

/-- The error formula in the words of the spec: the sum, over all metrics,
of the squared relative errors. -/
def specSquaredError (targets outcomes : Dict ℚ) : ℚ :=
  (targets.map (fun kv => relTermSq kv.2 ((Dict.lookup outcomes kv.1).getD 0))).sum

/-- The per-metric error contributions in the words of the spec: for every
metric, the absolute value of its own relative-error term. -/
def specContributions (targets outcomes : Dict ℚ) : Dict ℚ :=
  targets.map (fun kv => (kv.1, relTermAbs kv.2 ((Dict.lookup outcomes kv.1).getD 0)))


/-! ### Helper lemmas -/

theorem string_ab : (("a" : String) = "b") = False := by decide

theorem string_ba : (("b" : String) = "a") = False := by decide

theorem string_ca : (("c" : String) = "a") = False := by decide

theorem string_cb : (("c" : String) = "b") = False := by decide

theorem string_ac : (("a" : String) = "c") = False := by decide

theorem string_bc : (("b" : String) = "c") = False := by decide

theorem string_self (s : String) : (s = s) = True := by simp

theorem mkParameter_ok {n : String} {v lo hi : ℚ} {p : Parameter}
    (h : mkParameter n v lo hi = Except.ok p) :
    p.name = n ∧ p.val = v ∧ p.min_val = lo ∧ p.max_val = hi ∧
      lo ≤ v ∧ v ≤ hi ∧ lo < hi := by
  unfold mkParameter at h
  split at h
  · exact Except.noConfusion h
  next h1 =>
    split at h
    · exact Except.noConfusion h
    next h2 =>
      push_neg at h1 h2
      injection h with h3
      subst h3
      exact ⟨rfl, rfl, rfl, rfl, h1.1, h1.2, h2⟩

theorem mkBreedableParameter_ok {n : String} {v lo hi m : ℚ}
    {p : BreedableParameter}
    (h : mkBreedableParameter n v lo hi m = Except.ok p) :
    p.name = n ∧ p.val = v ∧ p.min_val = lo ∧ p.max_val = hi ∧
      p.mutation_prob = m ∧ lo ≤ v ∧ v ≤ hi ∧ lo < hi ∧ 0 ≤ m ∧ m ≤ 1 := by
  unfold mkBreedableParameter at h
  cases hm : mkParameter n v lo hi with
  | error e => rw [hm] at h; exact Except.noConfusion h
  | ok q =>
    rw [hm] at h
    simp only [] at h
    split at h
    · exact Except.noConfusion h
    next h2 =>
      push_neg at h2
      injection h with h3
      subst h3
      obtain ⟨q1, q2, q3, q4, q5, q6, q7⟩ := mkParameter_ok hm
      exact ⟨q1, q2, q3, q4, rfl, q5, q6, q7, h2.1, h2.2⟩

theorem mkBreedableParameter_succeeds {n : String} {v lo hi m : ℚ}
    (h1 : lo ≤ v) (h2 : v ≤ hi) (h3 : lo < hi) (h4 : 0 ≤ m) (h5 : m ≤ 1) :
    mkBreedableParameter n v lo hi m = Except.ok ⟨⟨n, v, lo, hi⟩, m⟩ := by
  unfold mkBreedableParameter mkParameter
  rw [if_neg (by push_neg; exact ⟨h1, h2⟩), if_neg (by push_neg; exact h3)]
  simp only []
  rw [if_neg (by push_neg; exact ⟨h4, h5⟩)]

theorem generate_random_ok {n : String} {lo hi rlo rhi m : ℚ} {s s1 : List ℚ}
    {p : BreedableParameter}
    (h : generate_random n lo hi rlo rhi m s = Except.ok (p, s1)) :
    p.name = n ∧ p.min_val = lo ∧ p.max_val = hi ∧ p.mutation_prob = m ∧
      p.val = rlo + (draw s).1 * (rhi - rlo) ∧ lo ≤ p.val ∧ p.val ≤ hi ∧
      s1 = (draw s).2 := by
  unfold generate_random uniform at h
  simp only [] at h
  cases hm : mkBreedableParameter n (rlo + (draw s).1 * (rhi - rlo)) lo hi m with
  | error e => rw [hm] at h; exact Except.noConfusion h
  | ok q =>
    rw [hm] at h
    simp only [] at h
    injection h with h3
    have hp : q = p := congrArg Prod.fst h3
    have hs1 : s1 = (draw s).2 := (congrArg Prod.snd h3).symm
    subst hp
    obtain ⟨q1, q2, q3, q4, q5, q6, q7, _, _, _⟩ := mkBreedableParameter_ok hm
    exact ⟨q1, q3, q4, q5, q2, q2 ▸ q6, q2 ▸ q7, hs1⟩

theorem draw_unit {s : List ℚ} (h : UnitDraws s) :
    0 ≤ (draw s).1 ∧ (draw s).1 ≤ 1 ∧ UnitDraws (draw s).2 := by
  cases s with
  | nil => exact ⟨le_refl 0, by norm_num [draw], by intro r hr; cases hr⟩
  | cons r rest =>
    refine ⟨(h r (by simp [draw])).1, (h r (by simp [draw])).2, ?_⟩
    intro x hx
    exact h x (List.mem_cons_of_mem r (by simpa [draw] using hx))

/-! ### C9 and C10: the two implicit safety flaws -/

/-- C9: `BreedableParameter.breed` is not total under its stated
precondition: with the parents at the two ends of the legal range (one at
`min_val`, the other at `max_val`), values distinct, and a positive
mutation probability, the mutation branch computes a combined outside-zone
width of zero and divides by it, raising `ZeroDivisionError`. -/
theorem claim9_breed_division_by_zero :
    pLow.name = pHigh.name ∧ pLow.val ≠ pHigh.val ∧
      0 < pLow.mutation_prob ∧ pLow.val = pLow.min_val ∧
      pHigh.val = pHigh.max_val ∧
      (pLow.val - pLow.min_val) + (pHigh.max_val - pHigh.val) = 0 ∧
      pLow.breed pHigh [0] =
        Except.error "ZeroDivisionError: float division by zero" := by
  refine ⟨rfl, by norm_num [pLow, pHigh], by norm_num [pLow],
    by norm_num [pLow], by norm_num [pHigh], by norm_num [pLow, pHigh], ?_⟩
  norm_num [BreedableParameter.breed, pLow, pHigh, uniform, draw, string_self]

/-- C10: `BreedableParameterGoup.gradient_update_to_target` is not total
when a metric is skipped: with outcome `0` for the only metric, no
multiplier is recorded for it, and the parameter lookup raises `KeyError`
instead of leaving the parameter unchanged. -/
theorem claim10_gradient_update_keyerror :
    targetMultipliers [("t", 0)] [("t", 5)] = Except.ok [] ∧
      gradCexGroup.gradient_update_to_target [("t", 0)] [("t", 5)]
          [("t", [("p", 1)])] =
        Except.error "KeyError: target_name missing from target_multipliers" := by
  constructor
  · norm_num [targetMultipliers, Dict.lookup, string_self]
  · norm_num [BreedableParameterGoup.gradient_update_to_target,
      targetMultipliers, gradientLoop, findWeight, Dict.lookup, nthParam,
      gradCexGroup, string_self]


theorem breed_ok {a b : BreedableParameter} {s s1 : List ℚ}
    {p : BreedableParameter} (h : a.breed b s = Except.ok (p, s1)) :
    p.name = a.name ∧ p.min_val = a.min_val ∧ p.max_val = a.max_val ∧
      p.mutation_prob = a.mutation_prob ∧ a.min_val ≤ p.val ∧
      p.val ≤ a.max_val := by
  unfold BreedableParameter.breed at h
  split at h
  · exact Except.noConfusion h
  split at h
  · obtain ⟨h1, h2, h3, h4, _, h6, h7, _⟩ := generate_random_ok h
    exact ⟨h1, h2, h3, h4, h6, h7⟩
  split at h
  · -- mutation branch
    split at h
    · split at h
      · exact Except.noConfusion h
      split at h
      · obtain ⟨h1, h2, h3, h4, _, h6, h7, _⟩ := generate_random_ok h
        exact ⟨h1, h2, h3, h4, h6, h7⟩
      · obtain ⟨h1, h2, h3, h4, _, h6, h7, _⟩ := generate_random_ok h
        exact ⟨h1, h2, h3, h4, h6, h7⟩
    · split at h
      · exact Except.noConfusion h
      split at h
      · obtain ⟨h1, h2, h3, h4, _, h6, h7, _⟩ := generate_random_ok h
        exact ⟨h1, h2, h3, h4, h6, h7⟩
      · obtain ⟨h1, h2, h3, h4, _, h6, h7, _⟩ := generate_random_ok h
        exact ⟨h1, h2, h3, h4, h6, h7⟩
  · -- no mutation: drawn between the parents
    split at h
    · split at h
      · exact Except.noConfusion h
      next bp heq =>
        injection h with h3
        have hp : bp = p := congrArg Prod.fst h3
        subst hp
        obtain ⟨q1, q2, q3, q4, q5, q6, q7, _, _, _⟩ :=
          mkBreedableParameter_ok heq
        exact ⟨q1, q3, q4, q5, q2 ▸ q6, q2 ▸ q7⟩
    · split at h
      · exact Except.noConfusion h
      next bp heq =>
        injection h with h3
        have hp : bp = p := congrArg Prod.fst h3
        subst hp
        obtain ⟨q1, q2, q3, q4, q5, q6, q7, _, _, _⟩ :=
          mkBreedableParameter_ok heq
        exact ⟨q1, q3, q4, q5, q2 ▸ q6, q2 ▸ q7⟩


theorem uniform_mem {lo hi r : ℚ} (h0 : 0 ≤ r) (h1 : r ≤ 1) (hlh : lo ≤ hi) :
    lo ≤ lo + r * (hi - lo) ∧ lo + r * (hi - lo) ≤ hi := by
  constructor
  · nlinarith
  · nlinarith

/-! ### C4: the breed branches -/

/-- C4: breeding same-named parents with equal values re-randomizes
uniformly over the entire legal range (the call is literally the full-range
`generate_random`, and any returned value is the uniform transform of the
consumed unit draw over `[min_val, max_val]`); with distinct values and
mutation probability 0, the child value lies between the parents' values;
distinct names raise; and every successful branch preserves self's name,
range and mutation probability. -/
theorem claim4_breed_branches :
    (∀ a b : BreedableParameter, ∀ s : List ℚ,
      a.name = b.name → a.val = b.val →
      a.breed b s = generate_random a.name a.min_val a.max_val a.min_val
          a.max_val a.mutation_prob s ∧
        ∀ p : BreedableParameter, ∀ s1 : List ℚ,
          a.breed b s = Except.ok (p, s1) →
          p.val = a.min_val + (draw s).1 * (a.max_val - a.min_val)) ∧
    (∀ a b : BreedableParameter, ∀ s : List ℚ,
      ∀ p : BreedableParameter, ∀ s1 : List ℚ,
      a.name = b.name → a.val ≠ b.val → a.mutation_prob = 0 → UnitDraws s →
      a.breed b s = Except.ok (p, s1) →
      min a.val b.val ≤ p.val ∧ p.val ≤ max a.val b.val) ∧
    (∀ a b : BreedableParameter, ∀ s : List ℚ, a.name ≠ b.name →
      a.breed b s =
        Except.error "ValueError: tried to breed two parameters with different names") ∧
    (∀ a b : BreedableParameter, ∀ s : List ℚ,
      ∀ p : BreedableParameter, ∀ s1 : List ℚ,
      a.breed b s = Except.ok (p, s1) →
      p.name = a.name ∧ p.min_val = a.min_val ∧ p.max_val = a.max_val ∧
        p.mutation_prob = a.mutation_prob) := by
  refine ⟨?_, ?_, ?_, ?_⟩
  · intro a b s hname hval
    have hb : a.breed b s = generate_random a.name a.min_val a.max_val
        a.min_val a.max_val a.mutation_prob s := by
      unfold BreedableParameter.breed
      rw [if_neg (not_not_intro hname), if_pos hval]
    refine ⟨hb, ?_⟩
    intro p s1 hok
    rw [hb] at hok
    exact (generate_random_ok hok).2.2.2.2.1
  · intro a b s p s1 hname hval hm0 hunit h
    obtain ⟨hd0, hd1, hdrest⟩ := draw_unit hunit
    obtain ⟨he0, he1, _⟩ := draw_unit hdrest
    unfold BreedableParameter.breed at h
    rw [if_neg (not_not_intro hname), if_neg hval] at h
    split at h
    next hc =>
      rw [hm0] at hc
      simp only [uniform] at hc
      linarith
    split at h
    next hlt =>
      split at h
      · exact Except.noConfusion h
      next bp heq =>
        injection h with h3
        have hp : bp = p := congrArg Prod.fst h3
        subst hp
        have hval2 := (mkBreedableParameter_ok heq).2.1
        simp only [uniform, draw] at hval2
        rw [min_eq_left (le_of_lt hlt), max_eq_right (le_of_lt hlt), hval2]
        exact uniform_mem he0 he1 (le_of_lt hlt)
    next hnlt =>
      have hgt : b.val < a.val :=
        lt_of_le_of_ne (not_lt.1 hnlt) (fun hc => hval hc.symm)
      split at h
      · exact Except.noConfusion h
      next bp heq =>
        injection h with h3
        have hp : bp = p := congrArg Prod.fst h3
        subst hp
        have hval2 := (mkBreedableParameter_ok heq).2.1
        simp only [uniform, draw] at hval2
        rw [min_eq_right (le_of_lt hgt), max_eq_left (le_of_lt hgt), hval2]
        exact uniform_mem he0 he1 (le_of_lt hgt)
  · intro a b s hname
    unfold BreedableParameter.breed
    rw [if_pos hname]
  · intro a b s p s1 h
    obtain ⟨h1, h2, h3, h4, _, _⟩ := breed_ok h
    exact ⟨h1, h2, h3, h4⟩

/-- C4 witness: breeding two concrete parameters with different names
raises the name-mismatch error. -/
theorem claim4_breed_branches_witness :
    pLow.breed (⟨⟨"q", 1, 0, 1⟩, 1⟩ : BreedableParameter) [] =
      Except.error "ValueError: tried to breed two parameters with different names" :=
  claim4_breed_branches.2.2.1 pLow ⟨⟨"q", 1, 0, 1⟩, 1⟩ [] (by decide)

/-! ### C5: move_towards_value -/

/-- C5: with rate 0 the value is unchanged; with rate 1 and a target inside
the legal range the value becomes exactly the target; a rate outside [0,1]
raises RangeError. -/
theorem claim5_move_towards_value :
    (∀ p : BreedableParameter, ∀ t : ℚ, WF p →
      ∃ q, p.move_towards_value t 0 = Except.ok q ∧ q.val = p.val) ∧
    (∀ p : BreedableParameter, ∀ t : ℚ, WF p →
      p.min_val ≤ t → t ≤ p.max_val →
      ∃ q, p.move_towards_value t 1 = Except.ok q ∧ q.val = t) ∧
    (∀ p : BreedableParameter, ∀ t r : ℚ, r < 0 ∨ r > 1 →
      p.move_towards_value t r =
        Except.error "ValueError: rate must be between 0.0 and 1.0") := by
  refine ⟨?_, ?_, ?_⟩
  · intro p t hwf
    obtain ⟨w1, w2, w3, w4, w5⟩ := hwf
    unfold BreedableParameter.move_towards_value
    rw [if_neg (by push_neg; norm_num)]
    by_cases hlt : p.val < t
    · rw [if_pos hlt]
      have hv : p.val + totalDistance p t * 0 = p.val := by ring
      rw [hv, mkBreedableParameter_succeeds w1 w2 w3 w4 w5]
      exact ⟨_, rfl, rfl⟩
    · rw [if_neg hlt]
      by_cases hgt : p.val > t
      · rw [if_pos hgt]
        have hv : p.val - totalDistance p t * 0 = p.val := by ring
        rw [hv, mkBreedableParameter_succeeds w1 w2 w3 w4 w5]
        exact ⟨_, rfl, rfl⟩
      · rw [if_neg hgt, mkBreedableParameter_succeeds w1 w2 w3 w4 w5]
        exact ⟨_, rfl, rfl⟩
  · intro p t hwf hmin hmax
    obtain ⟨w1, w2, w3, w4, w5⟩ := hwf
    unfold BreedableParameter.move_towards_value
    rw [if_neg (by push_neg; norm_num)]
    have hd : totalDistance p t = |t - p.val| := by
      unfold totalDistance
      rw [if_neg (not_lt.2 hmax), if_neg (not_lt.2 hmin)]
    by_cases hlt : p.val < t
    · rw [if_pos hlt, hd]
      have habs : |t - p.val| = t - p.val := abs_of_pos (by linarith)
      have hv : p.val + (t - p.val) * 1 = t := by ring
      rw [habs, hv, mkBreedableParameter_succeeds hmin hmax w3 w4 w5]
      exact ⟨_, rfl, rfl⟩
    · rw [if_neg hlt]
      by_cases hgt : p.val > t
      · rw [if_pos hgt, hd]
        have habs : |t - p.val| = p.val - t := by
          rw [abs_of_neg (by linarith)]; ring
        have hv : p.val - (p.val - t) * 1 = t := by ring
        rw [habs, hv, mkBreedableParameter_succeeds hmin hmax w3 w4 w5]
        exact ⟨_, rfl, rfl⟩
      · have heq : p.val = t := le_antisymm (not_lt.1 hgt) (not_lt.1 hlt)
        rw [if_neg hgt, mkBreedableParameter_succeeds w1 w2 w3 w4 w5]
        exact ⟨_, rfl, heq⟩
  · intro p t r hr
    unfold BreedableParameter.move_towards_value
    rw [if_pos hr]

/-- C5 witness: a rate of 2 raises the range error on a concrete
parameter. -/
theorem claim5_move_towards_value_witness :
    pLow.move_towards_value 0 2 =
      Except.error "ValueError: rate must be between 0.0 and 1.0" :=
  claim5_move_towards_value.2.2 pLow 0 2 (Or.inr (by norm_num))


theorem mk_ok_inv {n : String} {v lo hi m : ℚ} {p : BreedableParameter}
    (h : mkBreedableParameter n v lo hi m = Except.ok p) : Inv p := by
  obtain ⟨_, q2, q3, q4, _, q6, q7, _, _, _⟩ := mkBreedableParameter_ok h
  exact ⟨by rw [q3, q2]; exact q6, by rw [q4, q2]; exact q7⟩

theorem generate_random_inv {n : String} {lo hi rlo rhi m : ℚ}
    {s s1 : List ℚ} {p : BreedableParameter}
    (h : generate_random n lo hi rlo rhi m s = Except.ok (p, s1)) : Inv p := by
  obtain ⟨_, h2, h3, _, _, h6, h7, _⟩ := generate_random_ok h
  exact ⟨by rw [h2]; exact h6, by rw [h3]; exact h7⟩

theorem breed_inv {a b : BreedableParameter} {s s1 : List ℚ}
    {p : BreedableParameter} (h : a.breed b s = Except.ok (p, s1)) : Inv p := by
  obtain ⟨_, h2, h3, _, h5, h6⟩ := breed_ok h
  exact ⟨by rw [h2]; exact h5, by rw [h3]; exact h6⟩

theorem move_ok_inv {a : BreedableParameter} {t r : ℚ}
    {p : BreedableParameter}
    (h : a.move_towards_value t r = Except.ok p) : Inv p := by
  unfold BreedableParameter.move_towards_value at h
  split at h
  · exact Except.noConfusion h
  split at h
  · exact mk_ok_inv h
  split at h
  · exact mk_ok_inv h
  · exact mk_ok_inv h

theorem clone_ok_inv {a p : BreedableParameter}
    (h : a.clone = Except.ok p) : Inv p :=
  mk_ok_inv h

theorem append_ok {g : BreedableParameterGoup} {p : BreedableParameter}
    {g1 : BreedableParameterGoup} (h : g.append p = Except.ok g1) :
    g1.param_list = g.param_list ++ [p] := by
  unfold BreedableParameterGoup.append at h
  split at h
  · exact Except.noConfusion h
  · injection h with h1
    rw [← h1]

theorem randomizeLoop_inv {g : BreedableParameterGoup} (d : Dict ℕ) :
    ∀ (acc : BreedableParameterGoup) (s : List ℚ)
      (g1 : BreedableParameterGoup) (s1 : List ℚ),
      (∀ q ∈ acc.param_list, Inv q) →
      randomizeLoop g d acc s = Except.ok (g1, s1) →
      ∀ q ∈ g1.param_list, Inv q := by
  induction d with
  | nil =>
    intro acc s g1 s1 hacc h
    unfold randomizeLoop at h
    injection h with h1
    have h2 : acc = g1 := congrArg Prod.fst h1
    rw [← h2]
    exact hacc
  | cons kv rest ih =>
    obtain ⟨kname, idx⟩ := kv
    intro acc s g1 s1 hacc h
    unfold randomizeLoop at h
    split at h
    · exact Except.noConfusion h
    next p hp =>
      split at h
      · exact Except.noConfusion h
      next np s2 hgen =>
        split at h
        · exact Except.noConfusion h
        next acc1 happ =>
          refine ih acc1 s2 g1 s1 ?_ h
          intro q hq
          rw [append_ok happ] at hq
          rcases List.mem_append.1 hq with hq1 | hq2
          · exact hacc q hq1
          · rw [List.mem_singleton.1 hq2]
            exact generate_random_inv hgen

theorem gradientLoop_inv {g : BreedableParameterGoup} {ms : Dict ℚ}
    {w : Dict (Dict ℚ)} (d : Dict ℕ) :
    ∀ (acc : BreedableParameterGoup) (g1 : BreedableParameterGoup),
      (∀ q ∈ acc.param_list, Inv q) →
      gradientLoop g ms w d acc = Except.ok g1 →
      ∀ q ∈ g1.param_list, Inv q := by
  induction d with
  | nil =>
    intro acc g1 hacc h
    unfold gradientLoop at h
    injection h with h1
    rw [← h1]
    exact hacc
  | cons kv rest ih =>
    obtain ⟨kname, idx⟩ := kv
    intro acc g1 hacc h
    unfold gradientLoop at h
    split at h
    · exact Except.noConfusion h
    next p hp =>
      split at h
      · exact Except.noConfusion h
      next np hup =>
        split at h
        · exact Except.noConfusion h
        next acc1 happ =>
          refine ih acc1 g1 ?_ h
          intro q hq
          rw [append_ok happ] at hq
          rcases List.mem_append.1 hq with hq1 | hq2
          · exact hacc q hq1
          · rw [List.mem_singleton.1 hq2]
            split at hup
            next tw hfw =>
              split at hup
              · exact Except.noConfusion hup
              · exact move_ok_inv hup
            next hfw => exact clone_ok_inv hup

/-! ### C6: the range invariant -/

/-- C6: construction rejects a value outside the range and a degenerate
range, accepts the boundary values, and every parameter produced by the
constructor, `breed`, `move_towards_value`, `generate_random`, `randomize`
or `gradient_update_to_target` satisfies `min_val ≤ val ≤ max_val`. -/
theorem claim6_range_invariant :
    (∀ n : String, ∀ v lo hi m : ℚ, v < lo ∨ v > hi ∨ lo ≥ hi →
      ∃ e, mkBreedableParameter n v lo hi m = Except.error e) ∧
    (∀ n : String, ∀ lo hi m : ℚ, lo < hi → 0 ≤ m → m ≤ 1 →
      (∃ p, mkBreedableParameter n lo lo hi m = Except.ok p ∧ p.val = lo) ∧
      (∃ p, mkBreedableParameter n hi lo hi m = Except.ok p ∧ p.val = hi)) ∧
    (∀ n : String, ∀ v lo hi m : ℚ, ∀ p : BreedableParameter,
      mkBreedableParameter n v lo hi m = Except.ok p → Inv p) ∧
    (∀ a b : BreedableParameter, ∀ s : List ℚ,
      ∀ p : BreedableParameter, ∀ s1 : List ℚ,
      a.breed b s = Except.ok (p, s1) → Inv p) ∧
    (∀ a : BreedableParameter, ∀ t r : ℚ, ∀ p : BreedableParameter,
      a.move_towards_value t r = Except.ok p → Inv p) ∧
    (∀ n : String, ∀ lo hi rlo rhi m : ℚ, ∀ s : List ℚ,
      ∀ p : BreedableParameter, ∀ s1 : List ℚ,
      generate_random n lo hi rlo rhi m s = Except.ok (p, s1) → Inv p) ∧
    (∀ g : BreedableParameterGoup, ∀ s : List ℚ,
      ∀ g1 : BreedableParameterGoup, ∀ s1 : List ℚ,
      g.randomize s = Except.ok (g1, s1) → ∀ q ∈ g1.param_list, Inv q) ∧
    (∀ g : BreedableParameterGoup, ∀ o t : Dict ℚ, ∀ w : Dict (Dict ℚ),
      ∀ g1 : BreedableParameterGoup,
      g.gradient_update_to_target o t w = Except.ok g1 →
      ∀ q ∈ g1.param_list, Inv q) := by
  refine ⟨?_, ?_, ?_, ?_, ?_, ?_, ?_, ?_⟩
  · intro n v lo hi m hbad
    unfold mkBreedableParameter mkParameter
    by_cases h1 : v < lo ∨ v > hi
    · rw [if_pos h1]
      exact ⟨_, rfl⟩
    · have h2 : lo ≥ hi := by
        rcases hbad with hb | hb | hb
        · exact absurd (Or.inl hb) h1
        · exact absurd (Or.inr hb) h1
        · exact hb
      rw [if_neg h1, if_pos h2]
      exact ⟨_, rfl⟩
  · intro n lo hi m hlt hm0 hm1
    constructor
    · rw [mkBreedableParameter_succeeds (le_refl lo) (le_of_lt hlt) hlt hm0 hm1]
      exact ⟨_, rfl, rfl⟩
    · rw [mkBreedableParameter_succeeds (le_of_lt hlt) (le_refl hi) hlt hm0 hm1]
      exact ⟨_, rfl, rfl⟩
  · intro n v lo hi m p h
    exact mk_ok_inv h
  · intro a b s p s1 h
    exact breed_inv h
  · intro a t r p h
    exact move_ok_inv h
  · intro n lo hi rlo rhi m s p s1 h
    exact generate_random_inv h
  · intro g s g1 s1 h
    unfold BreedableParameterGoup.randomize at h
    exact randomizeLoop_inv g.param_index_dict BreedableParameterGoup.init s
      g1 s1 (by intro q hq; cases hq) h
  · intro g o t w g1 h
    unfold BreedableParameterGoup.gradient_update_to_target at h
    split at h
    · exact Except.noConfusion h
    next ms hms =>
      exact gradientLoop_inv g.param_index_dict BreedableParameterGoup.init
        g1 (by intro q hq; cases hq) h

/-- C6 witness: the boundary values are accepted for a concrete range. -/
theorem claim6_range_invariant_witness :
    (∃ p, mkBreedableParameter "x" 0 0 1 0 = Except.ok p ∧ p.val = 0) ∧
    (∃ p, mkBreedableParameter "x" 1 0 1 0 = Except.ok p ∧ p.val = 1) :=
  claim6_range_invariant.2.1 "x" 0 1 0 (by norm_num) (by norm_num) (by norm_num)


/-! ### C1: the weighted-adjustment advance -/

/-- C1 (amended): on a population that is not exactly ten, the weighted
adjustment raises the size error; when it returns a list, that list keeps
the two best-ranked candidates unchanged at indices 0 and 1, and indices
2 through 9 are the gradient updates of the sorted candidates at indices
0 through 7 (not 2 through 9). -/
theorem claim1_weighted_adjustments :
    (∀ l : List GeneticCalibration, l.length ≠ 10 →
      perform_weighted_parameter_adjustments l = Except.error sizeErrMsg) ∧
    (∀ l out : List GeneticCalibration,
      perform_weighted_parameter_adjustments l = Except.ok out →
      ∃ g0 g1 g2 g3 g4 g5 g6 g7 : GeneticCalibration,
      ∃ rest : List GeneticCalibration,
      ∃ u0 u1 u2 u3 u4 u5 u6 u7 : GeneticCalibration,
        sortCandidates l =
          g0 :: g1 :: g2 :: g3 :: g4 :: g5 :: g6 :: g7 :: rest ∧
        g0.gradient_update_to_target = Except.ok u0 ∧
        g1.gradient_update_to_target = Except.ok u1 ∧
        g2.gradient_update_to_target = Except.ok u2 ∧
        g3.gradient_update_to_target = Except.ok u3 ∧
        g4.gradient_update_to_target = Except.ok u4 ∧
        g5.gradient_update_to_target = Except.ok u5 ∧
        g6.gradient_update_to_target = Except.ok u6 ∧
        g7.gradient_update_to_target = Except.ok u7 ∧
        out = [g0, g1, u0, u1, u2, u3, u4, u5, u6, u7]) := by
  constructor
  · intro l hl
    unfold perform_weighted_parameter_adjustments
    rw [if_neg hl]
  · intro l out h
    unfold perform_weighted_parameter_adjustments at h
    split at h
    · split at h <;> try exact Except.noConfusion h
      next g0 g1 g2 g3 g4 g5 g6 g7 rest hsort =>
        split at h <;> try exact Except.noConfusion h
        next u0 h0 =>
        split at h <;> try exact Except.noConfusion h
        next u1 h1 =>
        split at h <;> try exact Except.noConfusion h
        next u2 h2 =>
        split at h <;> try exact Except.noConfusion h
        next u3 h3 =>
        split at h <;> try exact Except.noConfusion h
        next u4 h4 =>
        split at h <;> try exact Except.noConfusion h
        next u5 h5 =>
        split at h <;> try exact Except.noConfusion h
        next u6 h6 =>
        split at h <;> try exact Except.noConfusion h
        next u7 h7 =>
          injection h with h9
          exact ⟨g0, g1, g2, g3, g4, g5, g6, g7, rest, u0, u1, u2, u3, u4,
            u5, u6, u7, hsort, h0, h1, h2, h3, h4, h5, h6, h7, h9.symm⟩
    · exact Except.noConfusion h

/-- C1 witness: a population of size zero raises the size error. -/
theorem claim1_weighted_adjustments_witness :
    perform_weighted_parameter_adjustments [] = Except.error sizeErrMsg :=
  claim1_weighted_adjustments.1 [] (by decide)

/-- C1 counterexample: on ten concrete evaluated candidates the output at
index 2 is the gradient update of the sorted input at index 0 — not, as
claimed, the gradient update of the sorted input at index 2. -/
theorem claim1_counterexample :
    weightedOutputAt cexList 2 ≠ gradientOfSortedAt cexList 2 := by
  have h1 : weightedOutputAt cexList 2 = some (cexUpdated (1 / 10)) := by
    norm_num [weightedOutputAt, perform_weighted_parameter_adjustments,
      cexList, cexCand, cexUpdated, sortCandidates, List.foldl, insertSorted,
      GeneticCalibration.gradient_update_to_target,
      BreedableParameterGoup.gradient_update_to_target, targetMultipliers,
      gradientLoop, findWeight, nthParam, BreedableParameter.clone,
      mkBreedableParameter, mkParameter, BreedableParameterGoup.append,
      BreedableParameterGoup.init, keyMem, Dict.keys, List.map,
      GeneticCalibration.init, nthCand, string_self]
  have h2 : gradientOfSortedAt cexList 2 = some (cexUpdated (3 / 10)) := by
    norm_num [gradientOfSortedAt, cexList, cexCand, cexUpdated, sortCandidates,
      List.foldl, insertSorted, GeneticCalibration.gradient_update_to_target,
      BreedableParameterGoup.gradient_update_to_target, targetMultipliers,
      gradientLoop, findWeight, nthParam, BreedableParameter.clone,
      mkBreedableParameter, mkParameter, BreedableParameterGoup.append,
      BreedableParameterGoup.init, keyMem, Dict.keys, List.map,
      GeneticCalibration.init, nthCand, Except.toOption, string_self]
  rw [h1, h2]
  norm_num [cexUpdated]

/-! ### C3: the genetic-mixing advance -/

/-- C3: on a population that is not exactly ten, genetic mixing raises the
size error; when it returns a list, index 0 is the sorted input's best
candidate unchanged and the other nine are, in order, the breed results of
the sorted index pairs (0,1) (0,2) (0,3) (1,2) (1,3) (1,4) (2,3) (2,4)
(3,4), with the random supply threaded through in that order. -/
theorem claim3_genetic_mixing :
    (∀ l : List GeneticCalibration, ∀ s : List ℚ, l.length ≠ 10 →
      perform_genetic_mixing l s = Except.error sizeErrMsg) ∧
    (∀ l : List GeneticCalibration, ∀ s : List ℚ,
      ∀ out : List GeneticCalibration, ∀ s9 : List ℚ,
      perform_genetic_mixing l s = Except.ok (out, s9) →
      ∃ g0 g1 g2 g3 g4 : GeneticCalibration,
      ∃ rest : List GeneticCalibration,
      ∃ b01 b02 b03 b12 b13 b14 b23 b24 b34 : GeneticCalibration,
      ∃ s1 s2 s3 s4 s5 s6 s7 s8 : List ℚ,
        sortCandidates l = g0 :: g1 :: g2 :: g3 :: g4 :: rest ∧
        g0.breed g1 s = Except.ok (b01, s1) ∧
        g0.breed g2 s1 = Except.ok (b02, s2) ∧
        g0.breed g3 s2 = Except.ok (b03, s3) ∧
        g1.breed g2 s3 = Except.ok (b12, s4) ∧
        g1.breed g3 s4 = Except.ok (b13, s5) ∧
        g1.breed g4 s5 = Except.ok (b14, s6) ∧
        g2.breed g3 s6 = Except.ok (b23, s7) ∧
        g2.breed g4 s7 = Except.ok (b24, s8) ∧
        g3.breed g4 s8 = Except.ok (b34, s9) ∧
        out = [g0, b01, b02, b03, b12, b13, b14, b23, b24, b34]) := by
  constructor
  · intro l s hl
    unfold perform_genetic_mixing
    rw [if_neg hl]
  · intro l s out s9 h
    unfold perform_genetic_mixing at h
    split at h
    · split at h <;> try exact Except.noConfusion h
      next g0 g1 g2 g3 g4 rest hsort =>
        split at h <;> try exact Except.noConfusion h
        next b01 t1 e1 =>
        split at h <;> try exact Except.noConfusion h
        next b02 t2 e2 =>
        split at h <;> try exact Except.noConfusion h
        next b03 t3 e3 =>
        split at h <;> try exact Except.noConfusion h
        next b12 t4 e4 =>
        split at h <;> try exact Except.noConfusion h
        next b13 t5 e5 =>
        split at h <;> try exact Except.noConfusion h
        next b14 t6 e6 =>
        split at h <;> try exact Except.noConfusion h
        next b23 t7 e7 =>
        split at h <;> try exact Except.noConfusion h
        next b24 t8 e8 =>
        split at h <;> try exact Except.noConfusion h
        next b34 t9 e9 =>
          injection h with h9
          have hout : [g0, b01, b02, b03, b12, b13, b14, b23, b24, b34] = out :=
            congrArg Prod.fst h9
          have hs9 : t9 = s9 := congrArg Prod.snd h9
          subst hs9
          exact ⟨g0, g1, g2, g3, g4, rest, b01, b02, b03, b12, b13, b14, b23,
            b24, b34, t1, t2, t3, t4, t5, t6, t7, t8, hsort, e1, e2, e3, e4,
            e5, e6, e7, e8, e9, hout.symm⟩
    · exact Except.noConfusion h

/-- C3 witness: a population of size zero raises the size error. -/
theorem claim3_genetic_mixing_witness :
    perform_genetic_mixing [] [] = Except.error sizeErrMsg :=
  claim3_genetic_mixing.1 [] [] (by decide)


theorem lookup_of_keyMem {α : Type} {e : Dict α} {k : String}
    (h : keyMem k (Dict.keys e) = true) :
    ∃ v, Dict.lookup e k = some v := by
  induction e with
  | nil => simp [keyMem, Dict.keys] at h
  | cons kv rest ih =>
    obtain ⟨k1, v⟩ := kv
    simp only [Dict.keys, List.map] at h
    unfold keyMem at h
    unfold Dict.lookup
    by_cases hk : k1 = k
    · rw [if_pos hk]
      exact ⟨v, rfl⟩
    · rw [if_neg hk]
      rw [if_neg hk] at h
      exact ih h

theorem keysEqB_forall {α β : Type} {d : Dict α} {e : Dict β}
    (h : keysEqB d e = true) :
    ∀ k ∈ Dict.keys d, keyMem k (Dict.keys e) = true := by
  unfold keysEqB at h
  rw [Bool.and_eq_true] at h
  intro k hk
  exact List.all_eq_true.1 h.1 k hk

theorem squaredErrorSum_spec (targets : Dict ℚ) :
    ∀ outs : Dict ℚ,
      (∀ k ∈ Dict.keys targets, ∃ v, Dict.lookup outs k = some v) →
      squaredErrorSum targets outs =
        Except.ok (specSquaredError targets outs) := by
  induction targets with
  | nil => intro outs h; simp [squaredErrorSum, specSquaredError]
  | cons kv rest ih =>
    obtain ⟨k, t⟩ := kv
    intro outs h
    obtain ⟨o, ho⟩ := h k (by simp [Dict.keys])
    unfold squaredErrorSum
    rw [ho, ih outs (fun k2 hk2 => h k2 (by
      simp only [Dict.keys, List.map, List.mem_cons]
      right
      simpa [Dict.keys] using hk2))]
    simp [specSquaredError, List.map, ho]

theorem errorContributionsLoop_spec (targets : Dict ℚ) :
    ∀ outs : Dict ℚ,
      (∀ k ∈ Dict.keys targets, ∃ v, Dict.lookup outs k = some v) →
      errorContributionsLoop targets outs =
        Except.ok (specContributions targets outs) := by
  induction targets with
  | nil => intro outs h; simp [errorContributionsLoop, specContributions]
  | cons kv rest ih =>
    obtain ⟨k, t⟩ := kv
    intro outs h
    obtain ⟨o, ho⟩ := h k (by simp [Dict.keys])
    unfold errorContributionsLoop
    rw [ho, ih outs (fun k2 hk2 => h k2 (by
      simp only [Dict.keys, List.map, List.mem_cons]
      right
      simpa [Dict.keys] using hk2))]
    simp [specContributions, List.map, ho]

/-! ### C2: evaluate -/

/-- C2: `evaluate` raises unless the outcome keys equal the target keys;
otherwise it stores the outcomes as given and stores as error the square
root of the sum, over all metrics, of the squared relative errors (with the
fixed denominator 0.001 for a zero target); on the worked example the
stored error is `sqrt(0.01 + 1)`. -/
theorem claim2_evaluate :
    (∀ gc : GeneticCalibration, ∀ outs : Dict ℚ,
      keysEqB gc.targets outs = false →
      gc.evaluate outs =
        Except.error "ValueError: the targets dictionary and the outcomes dictionary have different keys") ∧
    (∀ gc gc2 : GeneticCalibration, ∀ outs : Dict ℚ,
      gc.evaluate outs = Except.ok gc2 →
      gc2.outcomes = some outs ∧
      gc2.evaluated_error_sq = specSquaredError gc.targets outs ∧
      gc2.evaluatedError = Real.sqrt ((specSquaredError gc.targets outs : ℚ) : ℝ)) ∧
    (∃ gc2 : GeneticCalibration,
      gcAB.evaluate [("a", 110), ("b", 1 / 1000)] = Except.ok gc2 ∧
      gc2.evaluatedError = Real.sqrt ((1 : ℝ) / 100 + 1)) := by
  refine ⟨?_, ?_, ?_⟩
  · intro gc outs h
    unfold GeneticCalibration.evaluate
    rw [if_pos (by simp [h])]
  · intro gc gc2 outs h
    unfold GeneticCalibration.evaluate at h
    split at h
    · exact Except.noConfusion h
    next hcond =>
      have hkeys : keysEqB gc.targets outs = true := not_not.1 hcond
      have hspec := squaredErrorSum_spec gc.targets outs
        (fun k hk => lookup_of_keyMem (keysEqB_forall hkeys k hk))
      split at h
      · exact Except.noConfusion h
      next sq heq =>
        injection h with h1
        have hsq : sq = specSquaredError gc.targets outs := by
          rw [heq] at hspec
          injection hspec
        subst h1
        refine ⟨rfl, hsq, ?_⟩
        unfold GeneticCalibration.evaluatedError
        show Real.sqrt ((sq : ℚ) : ℝ) =
          Real.sqrt ((specSquaredError gc.targets outs : ℚ) : ℝ)
        rw [hsq]
  · have hev : gcAB.evaluate [("a", 110), ("b", 1 / 1000)] =
        Except.ok ⟨gcAB.param_group, gcAB.targets,
          some [("a", 110), ("b", 1 / 1000)],
          gcAB.target_to_parameters_weights, gcAB.threshold, 101 / 100,
          gcAB.fred_key⟩ := by
      norm_num [GeneticCalibration.evaluate, gcAB, GeneticCalibration.init,
        keysEqB, keyMem, Dict.keys, List.map, List.all, squaredErrorSum,
        Dict.lookup, relTermSq, string_ab, string_ba, string_self]
    refine ⟨_, hev, ?_⟩
    unfold GeneticCalibration.evaluatedError
    show Real.sqrt (((101 : ℚ) / 100 : ℚ) : ℝ) = Real.sqrt ((1 : ℝ) / 100 + 1)
    norm_num

/-- C2 witness: evaluating with a key absent from the targets raises the
key-mismatch error. -/
theorem claim2_evaluate_witness :
    GeneticCalibration.init.evaluate [("z", 1)] =
      Except.error "ValueError: the targets dictionary and the outcomes dictionary have different keys" :=
  claim2_evaluate.1 GeneticCalibration.init [("z", 1)] (by decide)

/-! ### C8: evaluate_individual_error_contributions -/

/-- C8 (amended): the contributions call fails when the stored outcomes are
`None` (which the constructor never produces — it initializes the empty
dict) or when the key sets mismatch; with matching keys it returns, per
metric, the absolute value of that metric's own relative-error term,
unsquared and unsummed. An un-evaluated candidate is rejected only through
the key-mismatch test, so with empty targets it succeeds. -/
theorem claim8_contributions :
    (∀ gc : GeneticCalibration, gc.outcomes = none →
      gc.evaluate_individual_error_contributions =
        Except.error "ValueError: the outcomes must be set by using the evaluate method") ∧
    (∀ gc : GeneticCalibration, ∀ outs : Dict ℚ, gc.outcomes = some outs →
      keysEqB gc.targets outs = false →
      gc.evaluate_individual_error_contributions =
        Except.error "NameError: name outcomes is not defined") ∧
    (∀ gc : GeneticCalibration, ∀ outs : Dict ℚ, gc.outcomes = some outs →
      keysEqB gc.targets outs = true →
      gc.evaluate_individual_error_contributions =
        Except.ok (specContributions gc.targets outs)) := by
  refine ⟨?_, ?_, ?_⟩
  · intro gc h
    unfold GeneticCalibration.evaluate_individual_error_contributions
    rw [h]
  · intro gc outs h hk
    unfold GeneticCalibration.evaluate_individual_error_contributions
    rw [h]
    simp only []
    rw [if_pos (by simp [hk])]
  · intro gc outs h hk
    unfold GeneticCalibration.evaluate_individual_error_contributions
    rw [h]
    simp only []
    rw [if_neg (by simp [hk])]
    exact errorContributionsLoop_spec gc.targets outs
      (fun k hkm => lookup_of_keyMem (keysEqB_forall hk k hkm))

/-- C8 witness: a candidate whose outcomes field is `None` fails with the
unset-outcomes error. -/
theorem claim8_contributions_witness :
    ({ GeneticCalibration.init with outcomes := none } :
        GeneticCalibration).evaluate_individual_error_contributions =
      Except.error "ValueError: the outcomes must be set by using the evaluate method" :=
  claim8_contributions.1
    { GeneticCalibration.init with outcomes := none } rfl

/-- C8 counterexample: a freshly constructed candidate — `evaluate` never
called, outcomes still the initial empty dict — with empty targets succeeds
and returns the empty mapping, while the claim says the call must fail
whenever `evaluate` has not yet been called. -/
theorem claim8_counterexample :
    GeneticCalibration.init.evaluate_individual_error_contributions =
      Except.ok [] := by
  norm_num [GeneticCalibration.evaluate_individual_error_contributions,
    GeneticCalibration.init, keysEqB, Dict.keys, List.map, List.all,
    errorContributionsLoop]

/-! ### C7: remove -/

/-- C7 (code bug): on a group holding parameters `a` (index 0) and `b`
(index 1), removing `a` first decrements `b`'s index and deletes `a`'s
entry but then raises `TypeError` from `param_list.pop([idx])` — a list
passed where an integer index is required — leaving the parameter list
untouched and the index mapping inconsistent with it (entry `b ↦ 0` now
points at the parameter named `a`); removing an absent name is a no-op. -/
theorem claim7_remove_bug :
    removeCexGroup.remove ⟨⟨"a", 0, 0, 1⟩, 0⟩ =
      (⟨removeCexGroup.param_list, [("b", 0)]⟩,
        some "TypeError: list indices must be integers, not list") ∧
    removeCexGroup.remove ⟨⟨"c", 0, 0, 1⟩, 0⟩ = (removeCexGroup, none) ∧
    (nthParam (removeCexGroup.remove ⟨⟨"a", 0, 0, 1⟩, 0⟩).1.param_list 0).map
        (fun q => q.name) ≠ some "b" := by
  refine ⟨?_, ?_, ?_⟩
  · norm_num [BreedableParameterGoup.remove, removeCexGroup, Dict.lookup,
      List.map, delKey, string_ab, string_ba, string_self]
  · norm_num [BreedableParameterGoup.remove, removeCexGroup, Dict.lookup,
      string_ac, string_bc]
  · norm_num [BreedableParameterGoup.remove, removeCexGroup, Dict.lookup,
      List.map, delKey, nthParam, Option.map, string_ab, string_ba,
      string_self]

end Fred
